import Mathlib

/-!
Shallow embedding of yappcap (src/yappcap.pyx), a Cython bridge over a native
packet-capture engine (libpcap).  The definitions mirror the source file;
behaviour of the native engine itself, which is not part of the repository,
is modelled from the spec and each such definition says so in its doc comment.
Python exceptions are modelled as Except values, Python object state as
explicit record passing.
-/

namespace Yappcap

/-- Exception classes of yappcap.pyx (lines 10-44), together with Python
built-ins that the bridge can raise (StopIteration, TypeError) and a tag for
an arbitrary user exception escaping a callback. -/
inductive PExc where
  | pcapError (msg : String)
  | pcapErrorBreak
  | pcapErrorNotActivated
  | pcapErrorActivated
  | pcapErrorNoSuchDevice (msg : String)
  | pcapErrorRfmonNotSup
  | pcapErrorNotRfmon
  | pcapErrorPermDenied (msg : String)
  | pcapErrorIfaceNotUp
  | pcapWarning (msg : String)
  | pcapWarningPromiscNotSup (msg : String)
  | pcapTimeout
  | stopIteration
  | typeError (msg : String)
  | userRaised (tag : Nat)
  deriving DecidableEq, Repr

/-- Modelled from the spec: native status codes (the closed Error Taxonomy of
spec section 4.1 maps them; the values are those of pcap.h, and only their
identities matter to the bridge). -/
def PCAP_ERROR : Int := -1

/-- Modelled from the spec: native break status. -/
def PCAP_ERROR_BREAK : Int := -2

/-- Modelled from the spec: native not-activated status. -/
def PCAP_ERROR_NOT_ACTIVATED : Int := -3

/-- Modelled from the spec: native already-activated status. -/
def PCAP_ERROR_ACTIVATED : Int := -4

/-- Modelled from the spec: native no-such-device status. -/
def PCAP_ERROR_NO_SUCH_DEVICE : Int := -5

/-- Modelled from the spec: native rfmon-not-supported status. -/
def PCAP_ERROR_RFMON_NOTSUP : Int := -6

/-- Modelled from the spec: native permission-denied status. -/
def PCAP_ERROR_PERM_DENIED : Int := -8

/-- Modelled from the spec: native interface-not-up status. -/
def PCAP_ERROR_IFACE_NOT_UP : Int := -9

/-- Modelled from the spec: native generic warning status. -/
def PCAP_WARNING : Int := 1

/-- Modelled from the spec: native promiscuous-not-supported warning status. -/
def PCAP_WARNING_PROMISC_NOTSUP : Int := 2

/-- pcap_pkthdr: timestamp (whole seconds and microseconds), captured length,
and length on the wire. -/
structure PktHdr where
  ts_sec : Nat
  ts_usec : Nat
  caplen : Nat
  len : Nat
  deriving DecidableEq, Repr

/-- A packet as handed to the bridge by the native engine: a header plus the
raw capture buffer the data pointer points into. -/
structure RawPacket where
  hdr : PktHdr
  buf : List Nat
  deriving DecidableEq, Repr

/-- PcapPacket (yappcap.pyx lines 545-563): a copy of the header plus the
captured payload bytes. -/
structure PcapPacket where
  pkthdr : PktHdr
  data : List Nat
  deriving DecidableEq, Repr

/-- PcapPacket_factory (lines 569-574): copies the header and slices exactly
caplen bytes from the buffer (instance.__data = cast_data[:pkt_header.caplen]). -/
def PcapPacket_factory (r : RawPacket) : PcapPacket :=
  { pkthdr := r.hdr, data := r.buf.take r.hdr.caplen }

/-- The caplen property (lines 555-557). -/
def PcapPacket.caplen (p : PcapPacket) : Nat := p.pkthdr.caplen

/-- The wirelen property (lines 558-560). -/
def PcapPacket.wirelen (p : PcapPacket) : Nat := p.pkthdr.len

/-- Modelled from the spec: the native engine truncates each captured packet
to the snapshot length, recording caplen as the number of bytes actually kept
and len as the length on the wire ("length actually captured (may be less
than wire length if truncated by snapshot length)"). -/
def engineCapture (snaplen : Nat) (ts_sec ts_usec : Nat) (wire : List Nat) : RawPacket :=
  { hdr := { ts_sec := ts_sec, ts_usec := ts_usec,
             caplen := min wire.length snaplen, len := wire.length },
    buf := wire.take snaplen }

/-- Compile-time configuration of the pyx source (definitions.pxi is not in
the repository): whether AF_PACKET resp. AF_LINK support is compiled in. -/
structure BuildCfg where
  HAVE_AF_PACKET : Bool
  HAVE_AF_LINK : Bool
  deriving DecidableEq, Repr

/-- Modelled from the spec: platform address-family constant (Linux value;
only its identity matters to the family dispatch). -/
def AF_INET : Nat := 2

/-- Modelled from the spec: platform address-family constant. -/
def AF_INET6 : Nat := 10

/-- Modelled from the spec: platform address-family constant. -/
def AF_PACKET : Nat := 17

/-- Modelled from the spec: platform address-family constant. -/
def AF_LINK : Nat := 18

/-- Modelled from the spec: size of the platform sockaddr_in. -/
def sizeof_sockaddr_in : Int := 16

/-- Modelled from the spec: size of the platform sockaddr_in6. -/
def sizeof_sockaddr_in6 : Int := 28

/-- Modelled from the spec: size of the platform sockaddr_ll. -/
def sizeof_sockaddr_ll : Int := 20

/-- Modelled from the spec: size of the platform sockaddr_dl. -/
def sizeof_sockaddr_dl : Int := 54

/-- A native sockaddr; only its family field is inspected by the bridge. -/
structure Sockaddr where
  sa_family : Nat
  deriving DecidableEq, Repr

/-- get_sock_len (lines 692-703): derives the socket length from the address
family, returning -1 for an unrecognized or unsized family. -/
def get_sock_len (cfg : BuildCfg) (addr : Sockaddr) : Int :=
  if addr.sa_family = AF_INET then sizeof_sockaddr_in
  else if addr.sa_family = AF_INET6 then sizeof_sockaddr_in6
  else if cfg.HAVE_AF_PACKET ∧ addr.sa_family = AF_PACKET then sizeof_sockaddr_ll
  else if cfg.HAVE_AF_LINK ∧ addr.sa_family = AF_LINK then sizeof_sockaddr_dl
  else -1

/-- The Python dict built by parse_addr: always a family, and an address
string when rendering succeeded. -/
structure AddrDict where
  family : Nat
  address : Option String
  deriving DecidableEq, Repr

/-- parse_addr (lines 705-719).  The renderer parameter models the native
getnameinfo call on the given sockaddr and socket length: some s is a zero
result with s in the buffer, none a nonzero result. -/
def parse_addr (cfg : BuildCfg) (render : Sockaddr → Int → Option String)
    (addr : Option Sockaddr) : Option AddrDict :=
  match addr with
  | none => none
  | some a =>
    let socklen := get_sock_len cfg a
    if socklen < 0 then some { family := a.sa_family, address := none }
    else
      match render a socklen with
      | none => some { family := a.sa_family, address := none }
      | some s => some { family := a.sa_family, address := some s }

/-- A native pcap_addr_t node: the four role-tagged sockaddr pointers. -/
structure PcapAddrRoles where
  addr : Option Sockaddr
  netmask : Option Sockaddr
  broadaddr : Option Sockaddr
  dstaddr : Option Sockaddr
  deriving DecidableEq, Repr

/-- PcapAddress (lines 656-680): the four parsed role dicts. -/
structure PcapAddress where
  addr : Option AddrDict
  netmask : Option AddrDict
  broadaddr : Option AddrDict
  dstaddr : Option AddrDict
  deriving DecidableEq, Repr

/-- PcapAddress_factory (lines 721-727): parses each of the four roles. -/
def PcapAddress_factory (cfg : BuildCfg) (render : Sockaddr → Int → Option String)
    (a : PcapAddrRoles) : PcapAddress :=
  { addr := parse_addr cfg render a.addr,
    netmask := parse_addr cfg render a.netmask,
    broadaddr := parse_addr cfg render a.broadaddr,
    dstaddr := parse_addr cfg render a.dstaddr }

/-- The BpfProgram wrapper (lines 729-756): it stores the filter text; the
compiled native bpf_program handle is opaque to the bridge. -/
structure BpfProgram where
  filterstring : String
  deriving DecidableEq, Repr

/-- BpfProgram.__init__ (lines 732-753).  compileRes is the result of the
native pcap_compile call (-1 on failure). -/
def BpfProgram.mk_init (pcapActivated : Bool) (filterstring : String)
    (compileRes : Int) : Except PExc BpfProgram :=
  if ¬ pcapActivated then .error .pcapErrorNotActivated
  else if compileRes = -1 then .error (.pcapError "pcap_geterr")
  else if compileRes = PCAP_ERROR_NOT_ACTIVATED then .error .pcapErrorNotActivated
  else .ok { filterstring := filterstring }

/-- Common state of the Pcap base class (lines 67-75).  The native pcap_t
handle is modelled by its activation bit; dumper holds the autosave target
when a PcapDumper is attached and dumpLog the packets written to it through
PcapDumper.dump (lines 586-587). -/
structure Pcap where
  handleActivated : Bool
  activated : Bool
  filter : Option BpfProgram
  dumper : Option String
  dumpLog : List PcapPacket
  autosave : Option String
  deriving DecidableEq, Repr

/-- Result of the native pcap_next_ex call, by the cases line 89-105 inspect. -/
inductive NextRes where
  | timeout
  | nativeErr
  | eof
  | notAct
  | gotPkt (r : RawPacket)
  | unknown
  deriving DecidableEq, Repr

/-- Pcap.__next__ (lines 80-105): activation gate, then translation of the
pcap_next_ex status; a successfully read packet is first written to the
attached dumper, if any, and then returned. -/
def Pcap.next_packet (p : Pcap) (res : NextRes) : Except PExc PcapPacket × Pcap :=
  if ¬ p.activated then (.error .pcapErrorNotActivated, p)
  else
    match res with
    | .timeout => (.error .pcapTimeout, p)
    | .nativeErr => (.error (.pcapError "pcap_geterr"), p)
    | .eof => (.error .stopIteration, p)
    | .notAct => (.error .pcapErrorNotActivated, p)
    | .gotPkt r =>
      let pkt := PcapPacket_factory r
      if p.dumper.isSome then (.ok pkt, { p with dumpLog := p.dumpLog ++ [pkt] })
      else (.ok pkt, p)
    | .unknown => (.error (.pcapError "Unknown error"), p)

/-- A user callback handed to loop or dispatch; Except.error is a raise. -/
abbrev Callback := PcapPacket → Except PExc Unit

/-- State threaded through the native loop and the trampoline: the CPython
pending-exception indicator, the native break_loop flag of the handle, the
packets delivered to the user callback, and the packets written to the
attached dumper during the loop. -/
structure LoopCtx where
  pending : Option PExc
  breakFlag : Bool
  delivered : List PcapPacket
  dumped : List PcapPacket
  deriving DecidableEq, Repr

/-- __pcap_callback_fn (lines 46-60): builds the PcapPacket; if a Python
exception is already pending it requests a break of the native loop
(pcap.breakloop on an activated session sets the break flag); the user
callback, when supplied, is then invoked on the packet; because the function
is declared except star, a raise from the callback sets the pending indicator
and skips the dumper write, otherwise the packet is written to the attached
dumper, if any. -/
def pcap_callback_fn (cb : Option Callback) (dumperAttached : Bool)
    (ctx : LoopCtx) (r : RawPacket) : LoopCtx :=
  let pkt := PcapPacket_factory r
  let ctx1 := if ctx.pending.isSome then { ctx with breakFlag := true } else ctx
  match cb with
  | none =>
    if dumperAttached then { ctx1 with dumped := ctx1.dumped ++ [pkt] } else ctx1
  | some f =>
    let ctx2 := { ctx1 with delivered := ctx1.delivered ++ [pkt] }
    match f pkt with
    | .error e => { ctx2 with pending := some e }
    | .ok _ =>
      if dumperAttached then { ctx2 with dumped := ctx2.dumped ++ [pkt] } else ctx2

/-- The looptype constant PCAP_LOOP_DISPATCH (line 7). -/
def PCAP_LOOP_DISPATCH : Nat := 0

/-- The looptype constant PCAP_LOOP_LOOP (line 8). -/
def PCAP_LOOP_LOOP : Nat := 1

/-- Modelled from the spec: the native read loop over the queue of packets
the engine has to deliver (spec section 6, run_loop(handle, limit,
callback_ptr, user_ctx) -> count or status).  Per packet it invokes the
installed trampoline; at each check point a pending break request makes it
return the break status ("causing the next best-effort check point to exit
with Break"); on end of input bounded-dispatch returns the count processed
and unbounded-loop returns 0; a positive limit stops the loop after limit
packets ("limit is non-positive meaning forever"). -/
def nativeLoopRun (cb : Option Callback) (dumperAttached : Bool) (looptype : Nat)
    (cnt : Int) : List RawPacket → Nat → LoopCtx → Int × LoopCtx
  | q, n, ctx =>
    if ctx.breakFlag then (PCAP_ERROR_BREAK, ctx)
    else
      match q with
      | [] => (if looptype = PCAP_LOOP_DISPATCH then (n : Int) else 0, ctx)
      | r :: rest =>
        let ctx2 := pcap_callback_fn cb dumperAttached ctx r
        if 0 < cnt ∧ cnt ≤ (n + 1 : Int) then
          (if looptype = PCAP_LOOP_DISPATCH then (n + 1 : Int) else 0, ctx2)
        else
          nativeLoopRun cb dumperAttached looptype cnt rest (n + 1) ctx2

/-- The result translation of Pcap.__loop_common (lines 122-140): a pending
callback exception is re-raised in preference to any native status (lines
122-126, the comment there says pcap_loop will not return on an exception, so
to get the exception that really happened instead of a PcapErrorBreak it is
looked up); otherwise a non-negative status is a success (the count for
dispatch, None for loop) and a negative one maps to a structured error. -/
def loopStatus (pending : Option PExc) (looptype : Nat) (res : Int) :
    Except PExc (Option Int) :=
  match pending with
  | some e => .error e
  | none =>
    if 0 ≤ res then
      if looptype = PCAP_LOOP_DISPATCH then .ok (some res) else .ok none
    else if res = -1 then .error (.pcapError "pcap_geterr")
    else if res = PCAP_ERROR_BREAK then .error .pcapErrorBreak
    else if res = PCAP_ERROR_NOT_ACTIVATED then .error .pcapErrorNotActivated
    else .error (.pcapError "Unknown error")

/-- Pcap.__loop_common (lines 107-140): activation gate; runs the native loop
with the trampoline over the queue of packets the engine delivers; the result
is translated by loopStatus above.  Besides the Except result and the updated
session, the list of packets delivered to the user callback is returned as
the observable call trace. -/
def Pcap.loop_common (p : Pcap) (looptype : Nat) (count : Int)
    (cb : Option Callback) (q : List RawPacket) :
    Except PExc (Option Int) × Pcap × List PcapPacket :=
  if ¬ p.activated then (.error .pcapErrorNotActivated, p, [])
  else
    let ctx0 : LoopCtx :=
      { pending := none, breakFlag := false, delivered := [], dumped := [] }
    let out := nativeLoopRun cb p.dumper.isSome looptype count q 0 ctx0
    let ctx := out.2
    (loopStatus ctx.pending looptype out.1,
     { p with dumpLog := p.dumpLog ++ ctx.dumped }, ctx.delivered)

/-- Pcap.dispatch (lines 142-157). -/
def Pcap.dispatch (p : Pcap) (count : Int) (cb : Option Callback)
    (q : List RawPacket) : Except PExc (Option Int) × Pcap × List PcapPacket :=
  p.loop_common PCAP_LOOP_DISPATCH count cb q

/-- Pcap.loop (lines 159-170). -/
def Pcap.loop (p : Pcap) (count : Int) (cb : Option Callback)
    (q : List RawPacket) : Except PExc (Option Int) × Pcap × List PcapPacket :=
  p.loop_common PCAP_LOOP_LOOP count cb q

/-- Pcap.breakloop (lines 172-177): note the source RETURNS (rather than
raises) PcapErrorNotActivated on a non-activated session, so the call never
raises.  The break flag it sets lives in the opaque native handle and is
consumed inside nativeLoopRun; the wrapper state is unchanged. -/
def Pcap.breakloop_op (p : Pcap) : Except PExc Unit × Pcap := (.ok (), p)

/-- An argument to the filter setter: a BpfProgram, a string, or any other
Python object. -/
inductive FilterArg where
  | prog (b : BpfProgram)
  | str (s : String)
  | other
  deriving DecidableEq, Repr

/-- The Pcap.filter property setter (lines 182-208): activation gate; the new
BpfProgram (compiling a string argument first) is stored into self.__filter
BEFORE pcap_setfilter is called, so on a native attach failure the stored
filter already names the new program.  compileRes is the native pcap_compile
result used when a string argument forces compilation, setRes the native
pcap_setfilter result. -/
def Pcap.setFilter (p : Pcap) (bpf : FilterArg) (compileRes setRes : Int) :
    Except PExc Unit × Pcap :=
  if ¬ p.activated then (.error .pcapErrorNotActivated, p)
  else
    let attach : BpfProgram → Except PExc Unit × Pcap := fun b =>
      let p2 := { p with filter := some b }
      if setRes = -1 then (.error (.pcapError "pcap_geterr"), p2)
      else if setRes = PCAP_ERROR_NOT_ACTIVATED then
        (.error .pcapErrorNotActivated, p2)
      else (.ok (), p2)
    match bpf with
    | .prog b => attach b
    | .str s =>
      match BpfProgram.mk_init p.activated s compileRes with
      | .error e => (.error e, p)
      | .ok b => attach b
    | .other => (.error (.typeError "Must pass a BpfProgram or string type"), p)

/-- Pcap.blocking property setter (lines 437-450): activation gate, then
translation of the native pcap_setnonblock result res; the wrapper stores
nothing. -/
def Pcap.set_blocking (p : Pcap) (res : Int) : Except PExc Unit × Pcap :=
  if ¬ p.activated then (.error .pcapErrorNotActivated, p)
  else if res = -1 then (.error (.pcapError "errbuf"), p)
  else if res = PCAP_ERROR_NOT_ACTIVATED then (.error .pcapErrorNotActivated, p)
  else if res ≠ 0 then (.error (.pcapError "Unknown error"), p)
  else (.ok (), p)

/-- State of a PcapLive session (lines 235-241 plus the inherited base).  The
cdef object attributes start out as Python None, modelled by none; the
builds modelled are the modern (pcap_create) ones, the only ones the spec
describes ("some configuration backends pre-allocate the resource before
activation"). -/
structure PcapLive extends Pcap where
  snaplen : Option Int
  promisc : Option Bool
  rfmon : Option Bool
  timeout : Option Int
  buffer_size : Option Int
  interface : String
  deriving DecidableEq, Repr

/-- Modelled from the spec: the native pcap_set_snaplen, pcap_set_promisc,
pcap_set_timeout, pcap_set_rfmon and pcap_set_buffer_size calls reject
mutation of an activated handle with PCAP_ERROR_ACTIVATED and accept it (0)
otherwise ("configuration ... only legal to mutate before activation"). -/
def native_set (handleActivated : Bool) : Int :=
  if handleActivated then PCAP_ERROR_ACTIVATED else 0

/-- Modelled from the spec: native pcap_can_set_rfmon returns
PCAP_ERROR_ACTIVATED on an activated handle and otherwise a device-dependent
result (1 = supported, 0 = not supported, or a device error code), supplied
here as the devRes parameter. -/
def native_can_set_rfmon (handleActivated : Bool) (devRes : Int) : Int :=
  if handleActivated then PCAP_ERROR_ACTIVATED else devRes

/-- PcapLive.snaplen setter (lines 303-310), modern build: the native call
rejects an activated handle, in which case PcapErrorActivated is raised and
the stored value is left alone; otherwise the value is stored. -/
def PcapLive.set_snaplen (s : PcapLive) (v : Int) : Except PExc Unit × PcapLive :=
  if native_set s.handleActivated = PCAP_ERROR_ACTIVATED then
    (.error .pcapErrorActivated, s)
  else (.ok (), { s with snaplen := some v })

/-- PcapLive.promisc setter (lines 321-328), modern build. -/
def PcapLive.set_promisc (s : PcapLive) (v : Bool) : Except PExc Unit × PcapLive :=
  if native_set s.handleActivated = PCAP_ERROR_ACTIVATED then
    (.error .pcapErrorActivated, s)
  else (.ok (), { s with promisc := some v })

/-- PcapLive.timeout setter (lines 339-346), modern build. -/
def PcapLive.set_timeout (s : PcapLive) (v : Int) : Except PExc Unit × PcapLive :=
  if native_set s.handleActivated = PCAP_ERROR_ACTIVATED then
    (.error .pcapErrorActivated, s)
  else (.ok (), { s with timeout := some v })

/-- PcapLive.rfmon setter (lines 360-377), modern build: dispatches on the
pcap_can_set_rfmon result; on 1 it performs the native set and stores the
value.  Line 376 of the source raises the integer constant
PCAP_ERROR_ACTIVATED itself, which in Python is a TypeError; under the native
model that branch is unreachable (can-set returned 1, so the handle was not
activated). -/
def PcapLive.set_rfmon (s : PcapLive) (v : Bool) (devRes : Int) :
    Except PExc Unit × PcapLive :=
  let res := native_can_set_rfmon s.handleActivated devRes
  if res = 0 then (.ok (), s)
  else if res = PCAP_ERROR_NO_SUCH_DEVICE then (.error (.pcapErrorNoSuchDevice ""), s)
  else if res = PCAP_ERROR_ACTIVATED then (.error .pcapErrorActivated, s)
  else if res = PCAP_ERROR then (.error (.pcapError "pcap_geterr"), s)
  else if res = 1 then
    if native_set s.handleActivated = PCAP_ERROR_ACTIVATED then
      (.error (.typeError "exceptions must be old-style classes or derived from BaseException, not int"), s)
    else (.ok (), { s with rfmon := some v })
  else (.ok (), s)

/-- PcapLive.buffer_size setter (lines 392-397), modern build: the native
call is made (rejecting an activated handle) but the source never stores the
value back into self.__buffer_size. -/
def PcapLive.set_buffer_size (s : PcapLive) (_v : Int) : Except PExc Unit × PcapLive :=
  if native_set s.handleActivated = PCAP_ERROR_ACTIVATED then
    (.error .pcapErrorActivated, s)
  else (.ok (), s)

/-- Modelled from the spec: the native pcap_activate call.  On an already
activated handle it fails with PCAP_ERROR_ACTIVATED; otherwise it returns the
device-dependent status devRes, and on a success or warning status (devRes
non-negative) activation of the handle proceeds ("activation nonetheless
proceeds"), while on an error status the handle stays non-activated.  The
result is the status together with the new handle-activation bit. -/
def native_activate (handleActivated : Bool) (devRes : Int) : Int × Bool :=
  if handleActivated then (PCAP_ERROR_ACTIVATED, true)
  else if 0 ≤ devRes then (devRes, true)
  else (devRes, false)

/-- PcapLive.activate (lines 452-493), modern build: translates the native
pcap_activate status through the elif chain; only status 0 sets
self.__activated, every matched nonzero status raises (warnings included)
and thereby also skips the trailing autosave block; an unmatched status
falls through the chain without raising.  The trailing block (lines 492-493)
attaches a PcapDumper when an autosave target is configured; dumpOpenOk
models whether the native pcap_dump_open succeeds then. -/
def PcapLive.activate (s : PcapLive) (devRes : Int) (dumpOpenOk : Bool) :
    Except PExc Unit × PcapLive :=
  let nat := native_activate s.handleActivated devRes
  let res := nat.1
  let s2 := { s with handleActivated := nat.2 }
  let autosaveBlock : PcapLive → Except PExc Unit × PcapLive := fun t =>
    match t.autosave with
    | some fn =>
      if dumpOpenOk then (.ok (), { t with dumper := some fn })
      else (.error (.pcapError "pcap_geterr"), t)
    | none => (.ok (), t)
  if res = 0 then autosaveBlock { s2 with activated := true }
  else if res = PCAP_WARNING_PROMISC_NOTSUP then
    (.error (.pcapWarningPromiscNotSup "pcap_geterr"), s2)
  else if res = PCAP_WARNING then (.error (.pcapWarning "pcap_geterr"), s2)
  else if res = PCAP_ERROR_ACTIVATED then (.error .pcapErrorActivated, s2)
  else if res = PCAP_ERROR_NO_SUCH_DEVICE then
    (.error (.pcapErrorNoSuchDevice "pcap_geterr"), s2)
  else if res = PCAP_ERROR_PERM_DENIED then
    (.error (.pcapErrorPermDenied "pcap_geterr"), s2)
  else if res = PCAP_ERROR_RFMON_NOTSUP then (.error .pcapErrorRfmonNotSup, s2)
  else if res = PCAP_ERROR_IFACE_NOT_UP then (.error .pcapErrorIfaceNotUp, s2)
  else if res = PCAP_ERROR then (.error (.pcapError "pcap_geterr"), s2)
  else autosaveBlock s2

/-- State of a PcapOffline session (lines 497-498 plus the inherited base). -/
structure PcapOffline extends Pcap where
  filename : String
  deriving DecidableEq, Repr

/-- PcapOffline.__init__ (lines 499-522): pcap_open_offline (success modelled
by openOk; an opened savefile handle is natively activated), then
self.__activated = True, then the autosave block as in PcapLive.activate. -/
def PcapOffline.mk_init (filename : String) (autosave : Option String)
    (openOk dumpOpenOk : Bool) : Except PExc PcapOffline :=
  if ¬ openOk then .error (.pcapError "errbuf")
  else
    let s : PcapOffline :=
      { handleActivated := true, activated := true, filter := none,
        dumper := none, dumpLog := [], autosave := autosave,
        filename := filename }
    match autosave with
    | some fn =>
      if dumpOpenOk then .ok { s with dumper := some fn }
      else .error (.pcapError "pcap_geterr")
    | none => .ok s

/-- The public mutating interface of a live session: every method and
property setter of PcapLive and of its Pcap base that a caller can invoke,
each carrying the value it is called with and the native results the call
consumes. -/
inductive LiveOp where
  | opActivate (devRes : Int) (dumpOpenOk : Bool)
  | opSetSnaplen (v : Int)
  | opSetPromisc (v : Bool)
  | opSetTimeout (v : Int)
  | opSetRfmon (v : Bool) (devRes : Int)
  | opSetBufferSize (v : Int)
  | opSetFilter (arg : FilterArg) (compileRes setRes : Int)
  | opNext (res : NextRes)
  | opDispatch (count : Int) (cb : Option Callback) (q : List RawPacket)
  | opLoop (count : Int) (cb : Option Callback) (q : List RawPacket)
  | opBreakloop
  | opSetBlocking (res : Int)

/-- Applies a public operation to a live session, keeping the state it leaves
behind (whether the call returned or raised). -/
def PcapLive.applyOp (s : PcapLive) : LiveOp → PcapLive
  | .opActivate d k => (s.activate d k).2
  | .opSetSnaplen v => (s.set_snaplen v).2
  | .opSetPromisc v => (s.set_promisc v).2
  | .opSetTimeout v => (s.set_timeout v).2
  | .opSetRfmon v d => (s.set_rfmon v d).2
  | .opSetBufferSize v => (s.set_buffer_size v).2
  | .opSetFilter a c r => { s with toPcap := (s.toPcap.setFilter a c r).2 }
  | .opNext r => { s with toPcap := (s.toPcap.next_packet r).2 }
  | .opDispatch c cb q => { s with toPcap := (s.toPcap.loop_common PCAP_LOOP_DISPATCH c cb q).2.1 }
  | .opLoop c cb q => { s with toPcap := (s.toPcap.loop_common PCAP_LOOP_LOOP c cb q).2.1 }
  | .opBreakloop => { s with toPcap := s.toPcap.breakloop_op.2 }
  | .opSetBlocking r => { s with toPcap := (s.toPcap.set_blocking r).2 }

/-- The public mutating interface of an offline session: the methods and the
one property setter of the Pcap base (the PcapOffline properties snaplen,
swapped, major_version and minor_version are read-only). -/
inductive OfflineOp where
  | opSetFilter (arg : FilterArg) (compileRes setRes : Int)
  | opNext (res : NextRes)
  | opDispatch (count : Int) (cb : Option Callback) (q : List RawPacket)
  | opLoop (count : Int) (cb : Option Callback) (q : List RawPacket)
  | opBreakloop
  | opSetBlocking (res : Int)

/-- Applies a public operation to an offline session. -/
def PcapOffline.applyOp (s : PcapOffline) : OfflineOp → PcapOffline
  | .opSetFilter a c r => { s with toPcap := (s.toPcap.setFilter a c r).2 }
  | .opNext r => { s with toPcap := (s.toPcap.next_packet r).2 }
  | .opDispatch c cb q => { s with toPcap := (s.toPcap.loop_common PCAP_LOOP_DISPATCH c cb q).2.1 }
  | .opLoop c cb q => { s with toPcap := (s.toPcap.loop_common PCAP_LOOP_LOOP c cb q).2.1 }
  | .opBreakloop => { s with toPcap := s.toPcap.breakloop_op.2 }
  | .opSetBlocking r => { s with toPcap := (s.toPcap.set_blocking r).2 }

/-- Modelled from the spec: with a filter attached, the native engine
delivers exactly the packets matching the filter predicate, in the order it
produced them ("packets not matching the filter are never surfaced"). -/
def engineQueue (bpfMatch : RawPacket → Bool) (packets : List RawPacket) :
    List RawPacket :=
  packets.filter bpfMatch

/-- A concrete one-byte raw packet, used by witnesses. -/
def rawA : RawPacket :=
  { hdr := { ts_sec := 0, ts_usec := 0, caplen := 1, len := 1 }, buf := [1] }

/-- A concrete two-byte raw packet, used by witnesses. -/
def rawB : RawPacket :=
  { hdr := { ts_sec := 0, ts_usec := 0, caplen := 2, len := 2 }, buf := [2, 3] }

/-- A callback that raises a distinguishable user failure exactly on packets
whose payload is the single byte 1 (that is, on rawA but not rawB). -/
def sampleCb : Callback :=
  fun pkt => if pkt.data = [1] then .error (.userRaised 7) else .ok ()

/-- A callback that never raises. -/
def benignCb : Callback := fun _ => .ok ()

/-- A filter predicate matching exactly the packets of wire length 2. -/
def matchWire2 : RawPacket → Bool := fun r => r.hdr.len == 2

/-- An activated session with no dumper attached. -/
def samplePcapActive : Pcap :=
  { handleActivated := true, activated := true, filter := none, dumper := none,
    dumpLog := [], autosave := none }

/-- An activated session with a dumper attached. -/
def sampleDumpPcap : Pcap :=
  { samplePcapActive with dumper := some "out.pcap", autosave := some "out.pcap" }

/-- A freshly constructed, not yet activated live session with an autosave
target configured. -/
def sampleLiveFresh : PcapLive :=
  { handleActivated := false, activated := false, filter := none, dumper := none,
    dumpLog := [], autosave := some "auto.pcap", snaplen := some 65535,
    promisc := some false, rfmon := none, timeout := some 0, buffer_size := none,
    interface := "eth0" }

/-- A live session after a successful activation. -/
def sampleLiveActive : PcapLive :=
  { sampleLiveFresh with
    handleActivated := true
    activated := true
    autosave := none }

/-! Helper lemmas about the loop machinery. -/

theorem nativeLoopRun_nil (cb : Option Callback) (d : Bool) (lt : Nat) (cnt : Int)
    (n : Nat) (ctx : LoopCtx) :
    nativeLoopRun cb d lt cnt [] n ctx =
      if ctx.breakFlag then (PCAP_ERROR_BREAK, ctx)
      else (if lt = PCAP_LOOP_DISPATCH then (n : Int) else 0, ctx) := by
  rfl

theorem nativeLoopRun_cons (cb : Option Callback) (d : Bool) (lt : Nat) (cnt : Int)
    (r : RawPacket) (rest : List RawPacket) (n : Nat) (ctx : LoopCtx) :
    nativeLoopRun cb d lt cnt (r :: rest) n ctx =
      if ctx.breakFlag then (PCAP_ERROR_BREAK, ctx)
      else
        if 0 < cnt ∧ cnt ≤ (n + 1 : Int) then
          (if lt = PCAP_LOOP_DISPATCH then (n + 1 : Int) else 0,
           pcap_callback_fn cb d ctx r)
        else nativeLoopRun cb d lt cnt rest (n + 1) (pcap_callback_fn cb d ctx r) := by
  rfl

theorem nativeLoopRun_break (cb : Option Callback) (d : Bool) (lt : Nat) (cnt : Int)
    (q : List RawPacket) (n : Nat) (pe : Option PExc) (del dmp : List PcapPacket) :
    nativeLoopRun cb d lt cnt q n
      { pending := pe, breakFlag := true, delivered := del, dumped := dmp } =
      (PCAP_ERROR_BREAK,
       { pending := pe, breakFlag := true, delivered := del, dumped := dmp }) := by
  cases q with
  | nil => rw [nativeLoopRun_nil]; simp
  | cons r rest => rw [nativeLoopRun_cons]; simp

theorem nativeLoopRun_ok_front (cb : Callback) (d : Bool) (lt : Nat) :
    ∀ (q1 tail : List RawPacket) (n : Nat) (ctx : LoopCtx),
      ctx.pending = none → ctx.breakFlag = false →
      (∀ x ∈ q1, cb (PcapPacket_factory x) = .ok ()) →
      nativeLoopRun (some cb) d lt 0 (q1 ++ tail) n ctx =
        nativeLoopRun (some cb) d lt 0 tail (n + q1.length)
          { pending := none, breakFlag := false,
            delivered := ctx.delivered ++ q1.map PcapPacket_factory,
            dumped := ctx.dumped ++ if d then q1.map PcapPacket_factory else [] } := by
  intro q1
  induction q1 with
  | nil =>
    intro tail n ctx h1 h2 _
    cases ctx with
    | mk pending bf del dmp =>
      simp only [LoopCtx.mk.injEq] at h1 h2 ⊢
      subst h1
      subst h2
      simp
  | cons x xs ih =>
    intro tail n ctx h1 h2 h3
    cases ctx with
    | mk pending bf del dmp =>
      subst h1
      subst h2
      have hx : cb (PcapPacket_factory x) = .ok () := h3 x (List.mem_cons_self x xs)
      have hxs : ∀ y ∈ xs, cb (PcapPacket_factory y) = .ok () :=
        fun y hy => h3 y (List.mem_cons_of_mem x hy)
      have harith : n + 1 + xs.length = n + (xs.length + 1) := by omega
      cases d with
      | false =>
        rw [List.cons_append, nativeLoopRun_cons]
        simp only [pcap_callback_fn, hx, Option.isSome_none, Bool.false_eq_true,
          if_false, lt_self_iff_false, false_and]
        rw [ih tail (n + 1) _ rfl rfl hxs]
        simp [harith, List.append_assoc]
      | true =>
        rw [List.cons_append, nativeLoopRun_cons]
        simp only [pcap_callback_fn, hx, Option.isSome_none, Bool.false_eq_true,
          if_false, lt_self_iff_false, false_and, if_true]
        rw [ih tail (n + 1) _ rfl rfl hxs]
        simp [harith, List.append_assoc]

theorem nativeLoopRun_fail_head (cb : Callback) (d : Bool) (lt : Nat)
    (r : RawPacket) (rest : List RawPacket) (n : Nat) (ctx : LoopCtx) (e : PExc)
    (h1 : ctx.pending = none) (h2 : ctx.breakFlag = false)
    (he : cb (PcapPacket_factory r) = .error e) :
    nativeLoopRun (some cb) d lt 0 (r :: rest) n ctx =
      match rest with
      | [] =>
        (if lt = PCAP_LOOP_DISPATCH then ((n : Int) + 1) else 0,
         { pending := some e, breakFlag := false,
           delivered := ctx.delivered ++ [PcapPacket_factory r],
           dumped := ctx.dumped })
      | r2 :: _ =>
        (PCAP_ERROR_BREAK,
         { pending := match cb (PcapPacket_factory r2) with
             | .error e2 => some e2
             | .ok _ => some e,
           breakFlag := true,
           delivered := ctx.delivered ++ [PcapPacket_factory r, PcapPacket_factory r2],
           dumped := ctx.dumped ++
             (if d then
                match cb (PcapPacket_factory r2) with
                | .error _ => []
                | .ok _ => [PcapPacket_factory r2]
              else []) }) := by
  cases ctx with
  | mk pending bf del dmp =>
    subst h1
    subst h2
    rw [nativeLoopRun_cons]
    simp only [pcap_callback_fn, he, Option.isSome_none, Bool.false_eq_true, if_false,
      lt_self_iff_false, false_and]
    cases rest with
    | nil =>
      rw [nativeLoopRun_nil]
      simp
    | cons r2 rest2 =>
      rw [nativeLoopRun_cons]
      cases hr2 : cb (PcapPacket_factory r2) with
      | error e2 =>
        simp only [pcap_callback_fn, hr2, Option.isSome_some, if_true,
          Bool.false_eq_true, if_false, lt_self_iff_false, false_and]
        rw [nativeLoopRun_break]
        simp
      | ok u =>
        cases u
        simp only [pcap_callback_fn, hr2, Option.isSome_some, if_true,
          Bool.false_eq_true, if_false, lt_self_iff_false, false_and]
        cases d <;> simp [nativeLoopRun_break]

theorem loop_common_activated (p : Pcap) (lt : Nat) (c : Int) (cb : Option Callback)
    (q : List RawPacket) : (p.loop_common lt c cb q).2.1.activated = p.activated := by
  unfold Pcap.loop_common
  split <;> rfl

theorem setFilter_activated (p : Pcap) (a : FilterArg) (c r : Int) :
    (p.setFilter a c r).2.activated = p.activated := by
  unfold Pcap.setFilter
  repeat' split <;> try rfl

theorem next_packet_activated (p : Pcap) (r : NextRes) :
    (p.next_packet r).2.activated = p.activated := by
  unfold Pcap.next_packet
  repeat' split <;> try rfl

theorem set_blocking_state (p : Pcap) (r : Int) : (p.set_blocking r).2 = p := by
  unfold Pcap.set_blocking
  repeat' split
  all_goals rfl

theorem activate_mono (s : PcapLive) (d : Int) (k : Bool)
    (h : s.activated = true) : (s.activate d k).2.activated = true := by
  unfold PcapLive.activate
  dsimp only
  by_cases h0 : (native_activate s.handleActivated d).1 = 0
  · rw [if_pos h0]
    cases hA : s.autosave with
    | none => rfl
    | some fn => cases k <;> rfl
  · rw [if_neg h0]
    by_cases h1 : (native_activate s.handleActivated d).1 = PCAP_WARNING_PROMISC_NOTSUP
    · rw [if_pos h1]; exact h
    rw [if_neg h1]
    by_cases h2 : (native_activate s.handleActivated d).1 = PCAP_WARNING
    · rw [if_pos h2]; exact h
    rw [if_neg h2]
    by_cases h3 : (native_activate s.handleActivated d).1 = PCAP_ERROR_ACTIVATED
    · rw [if_pos h3]; exact h
    rw [if_neg h3]
    by_cases h4 : (native_activate s.handleActivated d).1 = PCAP_ERROR_NO_SUCH_DEVICE
    · rw [if_pos h4]; exact h
    rw [if_neg h4]
    by_cases h5 : (native_activate s.handleActivated d).1 = PCAP_ERROR_PERM_DENIED
    · rw [if_pos h5]; exact h
    rw [if_neg h5]
    by_cases h6 : (native_activate s.handleActivated d).1 = PCAP_ERROR_RFMON_NOTSUP
    · rw [if_pos h6]; exact h
    rw [if_neg h6]
    by_cases h7 : (native_activate s.handleActivated d).1 = PCAP_ERROR_IFACE_NOT_UP
    · rw [if_pos h7]; exact h
    rw [if_neg h7]
    by_cases h8 : (native_activate s.handleActivated d).1 = PCAP_ERROR
    · rw [if_pos h8]; exact h
    rw [if_neg h8]
    cases hA : s.autosave with
    | none => exact h
    | some fn => cases k <;> exact h

/-- C7: every PcapPacket built by PcapPacket_factory from a capture the
native engine produced under a snapshot length has captured-length at most
wire-length, with equality when no truncation by the snapshot length
occurred; moreover the payload holds exactly captured-length bytes. -/
theorem claim_c7 (snaplen ts_sec ts_usec : Nat) (wire : List Nat) :
    (PcapPacket_factory (engineCapture snaplen ts_sec ts_usec wire)).caplen ≤
      (PcapPacket_factory (engineCapture snaplen ts_sec ts_usec wire)).wirelen ∧
    (wire.length ≤ snaplen →
      (PcapPacket_factory (engineCapture snaplen ts_sec ts_usec wire)).caplen =
        (PcapPacket_factory (engineCapture snaplen ts_sec ts_usec wire)).wirelen) ∧
    (PcapPacket_factory (engineCapture snaplen ts_sec ts_usec wire)).data.length =
      (PcapPacket_factory (engineCapture snaplen ts_sec ts_usec wire)).caplen := by
  refine ⟨?_, ?_, ?_⟩ <;>
    simp [PcapPacket_factory, engineCapture, PcapPacket.caplen, PcapPacket.wirelen,
      List.length_take]

/-- Witness for C7 at a concrete input where no truncation occurs. -/
theorem claim_c7_witness :
    (PcapPacket_factory (engineCapture 4 0 0 [1, 2, 3])).caplen =
      (PcapPacket_factory (engineCapture 4 0 0 [1, 2, 3])).wirelen :=
  (claim_c7 4 0 0 [1, 2, 3]).2.1 (by decide)

/-- C8: PcapAddress_factory applies parse_addr to each of the four address
roles, and parse_addr maps a null pointer to an absent role, a recognized
family whose rendering fails (or an unrecognized family) to a family-only
dict, and a recognized family with a successful rendering to a dict with
both family and address string; a present pointer always yields a value, so
a rendering failure never fails the enumeration. -/
theorem claim_c8 (cfg : BuildCfg) (render : Sockaddr → Int → Option String) :
    (∀ a : PcapAddrRoles,
      PcapAddress_factory cfg render a =
        { addr := parse_addr cfg render a.addr,
          netmask := parse_addr cfg render a.netmask,
          broadaddr := parse_addr cfg render a.broadaddr,
          dstaddr := parse_addr cfg render a.dstaddr }) ∧
    parse_addr cfg render none = none ∧
    (∀ a : Sockaddr, get_sock_len cfg a < 0 →
      parse_addr cfg render (some a) = some { family := a.sa_family, address := none }) ∧
    (∀ a : Sockaddr, 0 ≤ get_sock_len cfg a → render a (get_sock_len cfg a) = none →
      parse_addr cfg render (some a) = some { family := a.sa_family, address := none }) ∧
    (∀ (a : Sockaddr) (str : String), 0 ≤ get_sock_len cfg a →
      render a (get_sock_len cfg a) = some str →
      parse_addr cfg render (some a) =
        some { family := a.sa_family, address := some str }) ∧
    (∀ a : Sockaddr, (parse_addr cfg render (some a)).isSome = true) := by
  refine ⟨fun a => rfl, rfl, ?_, ?_, ?_, ?_⟩
  · intro a h
    simp only [parse_addr]
    rw [if_pos h]
  · intro a h hr
    simp only [parse_addr]
    rw [if_neg (by omega), hr]
  · intro a str h hr
    simp only [parse_addr]
    rw [if_neg (by omega), hr]
  · intro a
    simp only [parse_addr]
    by_cases h : get_sock_len cfg a < 0
    · rw [if_pos h]
      rfl
    · rw [if_neg h]
      cases render a (get_sock_len cfg a) <;> rfl

/-- Witness for C8: an unrecognized family yields a family-only dict. -/
theorem claim_c8_witness :
    parse_addr { HAVE_AF_PACKET := true, HAVE_AF_LINK := false } (fun _ _ => none)
      (some { sa_family := 99 }) = some { family := 99, address := none } :=
  (claim_c8 { HAVE_AF_PACKET := true, HAVE_AF_LINK := false }
    (fun _ _ => none)).2.2.1 { sa_family := 99 } (by decide)

/-- C5: on an activated session a read that times out raises PcapTimeout
(rather than returning an empty record) and end-of-input raises
StopIteration, in both cases leaving the session unchanged. -/
theorem claim_c5 (p : Pcap) (h : p.activated = true) :
    p.next_packet .timeout = (.error .pcapTimeout, p) ∧
    p.next_packet .eof = (.error .stopIteration, p) := by
  constructor <;> simp [Pcap.next_packet, h]

/-- Witness for C5 at a concrete activated session. -/
theorem claim_c5_witness :
    samplePcapActive.next_packet .timeout = (.error .pcapTimeout, samplePcapActive) ∧
    samplePcapActive.next_packet .eof = (.error .stopIteration, samplePcapActive) :=
  claim_c5 samplePcapActive rfl

/-- C10: the buffer_size setter never stores the assigned value: the state it
leaves behind is the unmodified session, so after a successful pre-activation
assignment a read-back returns the value held before the assignment. -/
theorem claim_c10 (s : PcapLive) (v : Int) :
    (s.set_buffer_size v).2 = s ∧
    (s.handleActivated = false → s.set_buffer_size v = (.ok (), s)) := by
  constructor
  · unfold PcapLive.set_buffer_size
    split <;> rfl
  · intro h
    simp [PcapLive.set_buffer_size, native_set, h, PCAP_ERROR_ACTIVATED]

/-- Witness for C10 at a concrete fresh live session. -/
theorem claim_c10_witness :
    sampleLiveFresh.set_buffer_size 512 = (.ok (), sampleLiveFresh) :=
  (claim_c10 sampleLiveFresh 512).2 rfl

/-- C3: on a live session whose native handle is activated (which a
successful activate() leaves behind, last conjunct), every mutable
configuration setter (snaplen, promisc, timeout, rfmon, buffer_size) fails
with PcapErrorActivated and returns the session completely unchanged, so the
previously-active configuration value is preserved. -/
theorem claim_c3 (s : PcapLive) (v : Int) (b : Bool) (devRes : Int)
    (h : s.handleActivated = true) :
    s.set_snaplen v = (.error .pcapErrorActivated, s) ∧
    s.set_promisc b = (.error .pcapErrorActivated, s) ∧
    s.set_timeout v = (.error .pcapErrorActivated, s) ∧
    s.set_rfmon b devRes = (.error .pcapErrorActivated, s) ∧
    s.set_buffer_size v = (.error .pcapErrorActivated, s) ∧
    (∀ (t : PcapLive) (k : Bool), (t.activate 0 k).2.handleActivated = true) := by
  refine ⟨?_, ?_, ?_, ?_, ?_, ?_⟩
  · simp [PcapLive.set_snaplen, native_set, h]
  · simp [PcapLive.set_promisc, native_set, h]
  · simp [PcapLive.set_timeout, native_set, h]
  · simp [PcapLive.set_rfmon, native_can_set_rfmon, native_set, h,
      PCAP_ERROR_ACTIVATED, PCAP_ERROR_NO_SUCH_DEVICE, PCAP_ERROR]
  · simp [PcapLive.set_buffer_size, native_set, h]
  · intro t k
    unfold PcapLive.activate
    dsimp only
    cases ht : t.handleActivated with
    | true =>
      rw [if_neg (show ¬ (native_activate true 0).1 = 0 by decide),
        if_neg (show ¬ (native_activate true 0).1 = PCAP_WARNING_PROMISC_NOTSUP by decide),
        if_neg (show ¬ (native_activate true 0).1 = PCAP_WARNING by decide),
        if_pos (show (native_activate true 0).1 = PCAP_ERROR_ACTIVATED by decide)]
      rfl
    | false =>
      rw [if_pos (show (native_activate false 0).1 = 0 by decide)]
      cases hA : t.autosave with
      | none => rfl
      | some fn => cases k <;> rfl

/-- Witness for C3 at a concrete activated live session. -/
theorem claim_c3_witness :
    sampleLiveActive.set_snaplen 100 = (.error .pcapErrorActivated, sampleLiveActive) ∧
    sampleLiveActive.set_promisc true = (.error .pcapErrorActivated, sampleLiveActive) ∧
    sampleLiveActive.set_timeout 100 = (.error .pcapErrorActivated, sampleLiveActive) ∧
    sampleLiveActive.set_rfmon true 1 = (.error .pcapErrorActivated, sampleLiveActive) ∧
    sampleLiveActive.set_buffer_size 100 = (.error .pcapErrorActivated, sampleLiveActive) :=
  ⟨(claim_c3 sampleLiveActive 100 true 1 rfl).1,
   (claim_c3 sampleLiveActive 100 true 1 rfl).2.1,
   (claim_c3 sampleLiveActive 100 true 1 rfl).2.2.1,
   (claim_c3 sampleLiveActive 100 true 1 rfl).2.2.2.1,
   (claim_c3 sampleLiveActive 100 true 1 rfl).2.2.2.2.1⟩

/-- C9: on an activated session, when the native attach step of filter
assignment fails (pcap_setfilter returns -1), a PcapError is raised and the
stored filter has nonetheless already been updated to the new program; this
holds for a BpfProgram argument and for a string argument that compiles. -/
theorem claim_c9 (p : Pcap) (b : BpfProgram) (str : String) (compileRes : Int)
    (h : p.activated = true) :
    p.setFilter (.prog b) compileRes (-1) =
      (.error (.pcapError "pcap_geterr"), { p with filter := some b }) ∧
    (compileRes ≠ -1 → compileRes ≠ PCAP_ERROR_NOT_ACTIVATED →
      p.setFilter (.str str) compileRes (-1) =
        (.error (.pcapError "pcap_geterr"),
         { p with filter := some { filterstring := str } })) := by
  constructor
  · simp [Pcap.setFilter, h]
  · intro h1 h2
    simp [Pcap.setFilter, BpfProgram.mk_init, h, h1, h2]

/-- Witness for C9 at a concrete activated session. -/
theorem claim_c9_witness :
    samplePcapActive.setFilter (.prog { filterstring := "port 80" }) 0 (-1) =
      (.error (.pcapError "pcap_geterr"),
       { samplePcapActive with filter := some { filterstring := "port 80" } }) :=
  (claim_c9 samplePcapActive { filterstring := "port 80" } "port 80" 0 rfl).1

/-- C2 counterexample: a fresh live session with an autosave target whose
native activation reports the promiscuous-not-supported warning.  The
warning is raised, but contrary to the claim the wrapper activation state
stays false and no Dump Sink is constructed or attached. -/
theorem claim_c2_counterexample :
    (sampleLiveFresh.activate PCAP_WARNING_PROMISC_NOTSUP true).1 =
      .error (.pcapWarningPromiscNotSup "pcap_geterr") ∧
    (sampleLiveFresh.activate PCAP_WARNING_PROMISC_NOTSUP true).2.activated = false ∧
    (sampleLiveFresh.activate PCAP_WARNING_PROMISC_NOTSUP true).2.dumper = none :=
  ⟨rfl, rfl, rfl⟩

/-- C2 (amended): on a live session whose native activation returns a warning
status, the warning is raised to the caller as a distinguishable condition
and the native handle is left activated, but activation does not proceed in
the wrapper: the wrapper activation state is unchanged (so stays false) and
no Dump Sink is constructed or attached even when an autosave target was
configured. -/
theorem claim_c2_amended (s : PcapLive) (k : Bool) (res : Int)
    (h : s.handleActivated = false)
    (hw : res = PCAP_WARNING_PROMISC_NOTSUP ∨ res = PCAP_WARNING) :
    (s.activate res k).1 = .error
      (if res = PCAP_WARNING_PROMISC_NOTSUP then .pcapWarningPromiscNotSup "pcap_geterr"
       else .pcapWarning "pcap_geterr") ∧
    (s.activate res k).2.activated = s.activated ∧
    (s.activate res k).2.dumper = s.dumper ∧
    (s.activate res k).2.handleActivated = true := by
  rcases hw with h2 | h2 <;> subst h2 <;>
    simp [PcapLive.activate, native_activate, h, PCAP_WARNING_PROMISC_NOTSUP,
      PCAP_WARNING]

/-- Witness for C2 (amended) at a concrete fresh live session with an
autosave target, on the generic warning status. -/
theorem claim_c2_witness :
    (sampleLiveFresh.activate PCAP_WARNING true).1 = .error (.pcapWarning "pcap_geterr") ∧
    (sampleLiveFresh.activate PCAP_WARNING true).2.activated = sampleLiveFresh.activated ∧
    (sampleLiveFresh.activate PCAP_WARNING true).2.dumper = sampleLiveFresh.dumper ∧
    (sampleLiveFresh.activate PCAP_WARNING true).2.handleActivated = true :=
  claim_c2_amended sampleLiveFresh true PCAP_WARNING rfl (Or.inr rfl)

/-- C4: activation state is monotonic: every operation of the public
interface applied to a live or an offline session whose activation state is
true leaves it true; moreover a successfully constructed offline session
already starts with it true. -/
theorem claim_c4 :
    (∀ (s : PcapLive) (op : LiveOp), s.activated = true →
      (s.applyOp op).activated = true) ∧
    (∀ (s : PcapOffline) (op : OfflineOp), s.activated = true →
      (s.applyOp op).activated = true) ∧
    (∀ (fn : String) (a : Option String) (o k : Bool) (s : PcapOffline),
      PcapOffline.mk_init fn a o k = .ok s → s.activated = true) := by
  refine ⟨?_, ?_, ?_⟩
  · intro s op h
    cases op with
    | opActivate d k => exact activate_mono s d k h
    | opSetSnaplen v =>
      show ((s.set_snaplen v).2).activated = true
      unfold PcapLive.set_snaplen
      split <;> exact h
    | opSetPromisc v =>
      show ((s.set_promisc v).2).activated = true
      unfold PcapLive.set_promisc
      split <;> exact h
    | opSetTimeout v =>
      show ((s.set_timeout v).2).activated = true
      unfold PcapLive.set_timeout
      split <;> exact h
    | opSetRfmon v d =>
      show ((s.set_rfmon v d).2).activated = true
      unfold PcapLive.set_rfmon
      dsimp only
      repeat' split
      all_goals exact h
    | opSetBufferSize v =>
      show ((s.set_buffer_size v).2).activated = true
      unfold PcapLive.set_buffer_size
      split <;> exact h
    | opSetFilter a c r =>
      show ((s.toPcap.setFilter a c r).2).activated = true
      rw [setFilter_activated]
      exact h
    | opNext r =>
      show ((s.toPcap.next_packet r).2).activated = true
      rw [next_packet_activated]
      exact h
    | opDispatch c cb q =>
      show ((s.toPcap.loop_common PCAP_LOOP_DISPATCH c cb q).2.1).activated = true
      rw [loop_common_activated]
      exact h
    | opLoop c cb q =>
      show ((s.toPcap.loop_common PCAP_LOOP_LOOP c cb q).2.1).activated = true
      rw [loop_common_activated]
      exact h
    | opBreakloop => exact h
    | opSetBlocking r =>
      show ((s.toPcap.set_blocking r).2).activated = true
      rw [set_blocking_state]
      exact h
  · intro s op h
    cases op with
    | opSetFilter a c r =>
      show ((s.toPcap.setFilter a c r).2).activated = true
      rw [setFilter_activated]
      exact h
    | opNext r =>
      show ((s.toPcap.next_packet r).2).activated = true
      rw [next_packet_activated]
      exact h
    | opDispatch c cb q =>
      show ((s.toPcap.loop_common PCAP_LOOP_DISPATCH c cb q).2.1).activated = true
      rw [loop_common_activated]
      exact h
    | opLoop c cb q =>
      show ((s.toPcap.loop_common PCAP_LOOP_LOOP c cb q).2.1).activated = true
      rw [loop_common_activated]
      exact h
    | opBreakloop => exact h
    | opSetBlocking r =>
      show ((s.toPcap.set_blocking r).2).activated = true
      rw [set_blocking_state]
      exact h
  · intro fn a o k s hok
    cases o with
    | false => simp [PcapOffline.mk_init] at hok
    | true =>
      cases a with
      | none =>
        simp [PcapOffline.mk_init] at hok
        rw [← hok]
      | some fn2 =>
        cases k with
        | false => simp [PcapOffline.mk_init] at hok
        | true =>
          simp [PcapOffline.mk_init] at hok
          rw [← hok]

/-- Witness for C4 at a concrete activated live session and operation. -/
theorem claim_c4_witness :
    (sampleLiveActive.applyOp .opBreakloop).activated = true :=
  claim_c4.1 sampleLiveActive .opBreakloop rfl

/-- C1 counterexample: an activated session, two packets, a callback that
raises exactly on the first.  The loop propagates the original failure (not
PcapErrorBreak), but contrary to the claim a further packet is still
delivered to the callback after the one whose invocation failed: the
delivered trace holds both packets, not merely the failing one. -/
theorem claim_c1_counterexample :
    (samplePcapActive.loop 0 (some sampleCb) [rawA, rawB]).1 =
      .error (.userRaised 7) ∧
    (samplePcapActive.loop 0 (some sampleCb) [rawA, rawB]).2.2 =
      [PcapPacket_factory rawA, PcapPacket_factory rawB] ∧
    (samplePcapActive.loop 0 (some sampleCb) [rawA, rawB]).2.2 ≠
      [PcapPacket_factory rawA] := by
  refine ⟨rfl, rfl, by decide⟩

/-- C1 (amended): for loop() and dispatch() with unbounded count on an
activated session, when the user callback first fails on some packet the
call propagates a failure raised by the callback itself and never a
synthetic PcapErrorBreak: the original failure, unless the callback fails
again on the one further packet that is still delivered (during whose
trampoline invocation the break is requested), in which case that later
callback failure propagates.  Exactly the packets up to and including at
most one past the first failing one are delivered to the callback. -/
theorem claim_c1_amended (p : Pcap) (lt : Nat) (cb : Callback)
    (q1 : List RawPacket) (r : RawPacket) (rest : List RawPacket) (e : PExc)
    (hact : p.activated = true)
    (hok : ∀ x ∈ q1, cb (PcapPacket_factory x) = .ok ())
    (he : cb (PcapPacket_factory r) = .error e) :
    (p.loop_common lt 0 (some cb) (q1 ++ r :: rest)).1 =
      .error (match rest with
        | [] => e
        | r2 :: _ =>
          match cb (PcapPacket_factory r2) with
          | .error e2 => e2
          | .ok _ => e) ∧
    (p.loop_common lt 0 (some cb) (q1 ++ r :: rest)).2.2 =
      (q1 ++ r :: rest.take 1).map PcapPacket_factory := by
  unfold Pcap.loop_common
  rw [if_neg (by simp [hact])]
  dsimp only
  rw [nativeLoopRun_ok_front cb p.dumper.isSome lt q1 (r :: rest) 0
    { pending := none, breakFlag := false, delivered := [], dumped := [] }
    rfl rfl hok]
  simp only [Nat.zero_add, List.nil_append]
  rw [nativeLoopRun_fail_head cb p.dumper.isSome lt r rest q1.length
    { pending := none, breakFlag := false,
      delivered := q1.map PcapPacket_factory,
      dumped := if p.dumper.isSome = true then q1.map PcapPacket_factory else [] }
    e rfl rfl he]
  cases rest with
  | nil =>
    refine ⟨rfl, ?_⟩
    simp
  | cons r2 rest2 =>
    cases hr2 : cb (PcapPacket_factory r2) with
    | error e2 =>
      refine ⟨?_, ?_⟩ <;> simp [loopStatus, hr2]
    | ok u =>
      cases u
      refine ⟨?_, ?_⟩ <;> simp [loopStatus, hr2]

/-- Witness for C1 (amended): the failing packet is the first of two; the
original callback failure propagates and both packets were delivered. -/
theorem claim_c1_witness :
    (samplePcapActive.loop_common PCAP_LOOP_LOOP 0 (some sampleCb) [rawA, rawB]).1 =
      .error (.userRaised 7) ∧
    (samplePcapActive.loop_common PCAP_LOOP_LOOP 0 (some sampleCb) [rawA, rawB]).2.2 =
      [PcapPacket_factory rawA, PcapPacket_factory rawB] :=
  claim_c1_amended samplePcapActive PCAP_LOOP_LOOP sampleCb [] rawA [rawB]
    (.userRaised 7) rfl (fun x hx => absurd hx (List.not_mem_nil x)) rfl

/-- C6: on an activated offline session with a dumper attached, running an
unbounded loop over the queue the engine delivers under an attached filter
(exactly the matching packets, in order) with a callback that never raises:
the loop succeeds, the callback is invoked exactly once per matching packet,
on the matching packets in their original order, and the dumper receives
exactly those records in the same order. -/
theorem claim_c6 (p : Pcap) (cb : Callback) (bpfMatch : RawPacket → Bool)
    (packets : List RawPacket)
    (hact : p.activated = true) (hd : p.dumper.isSome = true)
    (hok : ∀ x ∈ engineQueue bpfMatch packets, cb (PcapPacket_factory x) = .ok ()) :
    (p.loop 0 (some cb) (engineQueue bpfMatch packets)).1 = .ok none ∧
    (p.loop 0 (some cb) (engineQueue bpfMatch packets)).2.2 =
      (packets.filter bpfMatch).map PcapPacket_factory ∧
    (p.loop 0 (some cb) (engineQueue bpfMatch packets)).2.1.dumpLog =
      p.dumpLog ++ (packets.filter bpfMatch).map PcapPacket_factory := by
  unfold Pcap.loop Pcap.loop_common
  rw [if_neg (by simp [hact])]
  dsimp only
  rw [show engineQueue bpfMatch packets = engineQueue bpfMatch packets ++ []
    from (List.append_nil _).symm]
  rw [nativeLoopRun_ok_front cb p.dumper.isSome PCAP_LOOP_LOOP
    (engineQueue bpfMatch packets) [] 0
    { pending := none, breakFlag := false, delivered := [], dumped := [] }
    rfl rfl hok]
  rw [nativeLoopRun_nil]
  refine ⟨?_, ?_, ?_⟩ <;>
    simp [loopStatus, engineQueue, hd, PCAP_LOOP_LOOP, PCAP_LOOP_DISPATCH]

/-- Witness for C6: two packets of which the filter matches one; the loop
returns successfully, delivers exactly the matching packet to the callback
and appends exactly that record to the dumper. -/
theorem claim_c6_witness :
    (sampleDumpPcap.loop 0 (some benignCb) (engineQueue matchWire2 [rawA, rawB])).1 =
      .ok none ∧
    (sampleDumpPcap.loop 0 (some benignCb) (engineQueue matchWire2 [rawA, rawB])).2.2 =
      ([rawA, rawB].filter matchWire2).map PcapPacket_factory ∧
    (sampleDumpPcap.loop 0 (some benignCb)
        (engineQueue matchWire2 [rawA, rawB])).2.1.dumpLog =
      sampleDumpPcap.dumpLog ++ ([rawA, rawB].filter matchWire2).map PcapPacket_factory :=
  claim_c6 sampleDumpPcap benignCb matchWire2 [rawA, rawB] rfl rfl (fun _ _ => rfl)

end Yappcap
